import Mathlib

/-!
Shallow embedding of the p2p RPC and pubsub core of the repository.

The Go source (part_000) implements, on top of a libp2p host:
  - a newline-delimited framer (delimReader, lines 789-810),
  - a per-peer reader/writer worker pair (rpcMsgReader / rpcMsgWriter),
  - an RPC dispatcher (requestHandler, responseHandler),
  - a request tracker with a close-signal latch and a 5 second timeout
    (sendRequest, lines 357-433),
  - a pubsub dispatcher with a self-echo filter (pubsubMsgProcessor),
  - per-peer worker creation with insert-if-absent semantics
    (newRPCStreamHandler, lines 155-169).

src/p2p/server/server.go contributes the grpc Ping handler.

Bytes are modelled as lists of naturals, JSON marshalling as an abstract
codec parameter (an encode function and a fallible decode function), the
concurrent maps as association lists, and the goroutine interleavings of
the tracker latch as an explicit scheduled transition system.
-/

/-- A byte stream or payload: bytes as naturals (values below 256 in use). -/
abbrev Bytes := List Nat

/-- The newline delimiter byte 0x0A used by the framer (delimReader is
called with the delimiter character in rpcMsgReader, line 210). -/
def newlineByte : Nat := 10

/-- Translation of delimReader (lines 789-810).  The Go loop calls
bufio.ReadBytes, which returns everything up to AND INCLUDING the first
delimiter, or, when the input ends first, the remaining bytes together
with an error; the loop sends every nonempty returned slice on the
channel and stops at the first error.  The accumulator holds the bytes
of the chunk read so far, in reverse. -/
def delimFramesAux (delim : Nat) (acc : List Nat) : List Nat → List (List Nat)
  | [] => if acc.isEmpty then [] else [acc.reverse]
  | b :: rest =>
    if b = delim then (acc.reverse ++ [b]) :: delimFramesAux delim [] rest
    else delimFramesAux delim (b :: acc) rest

/-- delimReader over a finite input stream: the sequence of byte slices
sent on the channel (lines 795-804). -/
def delimReader (delim : Nat) (input : List Nat) : List (List Nat) :=
  delimFramesAux delim [] input

/-- The frames the RPC reader loop actually dispatches: rpcMsgReader
skips slices of length 0 (lines 213-216) before spawning msgProcessor. -/
def rpcReaderFrames (input : List Nat) : List (List Nat) :=
  (delimReader newlineByte input).filter (fun f => f.length ≠ 0)

/-- The framer as the spec sentence for claim C6 describes it, written
from the words of the spec for comparison with delimReader: only the
complete frames delimited by the newline byte are yielded, a trailing
chunk not terminated by a newline is not delivered, and empty frames
(a delimiter with no content) are skipped. -/
def framerClaimedAux (delim : Nat) (acc : List Nat) : List Nat → List (List Nat)
  | [] => []
  | b :: rest =>
    if b = delim then
      (if acc.isEmpty then [] else [acc.reverse]) ++ framerClaimedAux delim [] rest
    else framerClaimedAux delim (b :: acc) rest

/-- Spec-side framer over a finite input stream (see framerClaimedAux). -/
def framerClaimed (delim : Nat) (input : List Nat) : List (List Nat) :=
  framerClaimedAux delim [] input

theorem delimFramesAux_join (delim : Nat) (input : List Nat) : ∀ acc : List Nat,
    (delimFramesAux delim acc input).flatten = acc.reverse ++ input := by
  induction input with
  | nil =>
    intro acc
    by_cases h : acc.isEmpty
    · simp [delimFramesAux, h, List.isEmpty_iff.mp h]
    · simp [delimFramesAux, h]
  | cons b rest ih =>
    intro acc
    by_cases h : b = delim
    · simp [delimFramesAux, h, ih []]
    · simpa [delimFramesAux, h] using ih (b :: acc)

theorem delimFramesAux_ne_nil (delim : Nat) (input : List Nat) : ∀ acc : List Nat,
    ∀ f ∈ delimFramesAux delim acc input, f ≠ [] := by
  induction input with
  | nil =>
    intro acc f hf
    by_cases h : acc.isEmpty
    · simp [delimFramesAux, h] at hf
    · simp [delimFramesAux, h] at hf
      subst hf
      simpa [List.isEmpty_iff] using h
  | cons b rest ih =>
    intro acc f hf
    by_cases h : b = delim
    · simp [delimFramesAux, h] at hf
      rcases hf with hf | hf
      · subst hf; simp
      · exact ih [] f hf
    · exact ih (b :: acc) f (by simpa [delimFramesAux, h] using hf)

theorem delimFramesAux_dropLast (delim : Nat) (input : List Nat) : ∀ acc : List Nat,
    (∀ b ∈ acc, b ≠ delim) →
    ∀ f ∈ delimFramesAux delim acc input, ∀ b ∈ f.dropLast, b ≠ delim := by
  induction input with
  | nil =>
    intro acc hacc f hf
    by_cases h : acc.isEmpty
    · simp [delimFramesAux, h] at hf
    · simp [delimFramesAux, h] at hf
      subst hf
      intro b hb
      exact hacc b (by simpa using (List.dropLast_sublist acc.reverse).subset hb)
  | cons a rest ih =>
    intro acc hacc f hf
    by_cases h : a = delim
    · simp [delimFramesAux, h] at hf
      rcases hf with hf | hf
      · subst hf
        intro b hb
        rw [List.dropLast_concat] at hb
        exact hacc b (by simpa using hb)
      · exact ih [] (by simp) f hf
    · refine ih (a :: acc) ?_ f (by simpa [delimFramesAux, h] using hf)
      intro b hb
      rcases List.mem_cons.mp hb with hb | hb
      · simpa [hb] using h
      · exact hacc b hb

/-- Abstract JSON payload codec: json.Marshal as a total encode and
json.Unmarshal as a fallible decode carrying the error text. -/
structure Codec (α : Type) where
  enc : α → Bytes
  dec : Bytes → Except String α

/-- rpcPayloadRequest (lines 98-101): method name and pre-encoded data. -/
structure rpcPayloadRequest where
  type : String
  data : Bytes
deriving DecidableEq

/-- rpcPayloadResponse (lines 103-106): empty error string means success. -/
structure rpcPayloadResponse where
  error : String
  data : Bytes
deriving DecidableEq

/-- Result of invoking a registered handler function: a value, an error,
or a Go panic carrying the panic value. -/
inductive HandlerRun (β : Type) where
  | ok (y : β)
  | err (e : String)
  | panicked (v : String)

/-- rpcHandler (lines 76-79): the registered function, typed via the
codec pair rather than via reflection on RequestStruct. -/
structure rpcHandlerM (α β : Type) where
  func : String → α → HandlerRun β

/-- requestHandler (lines 250-325) at payload level.  The returned list
is what gets enqueued on the write queue together with the request id;
a HandlerRun.panicked escapes requestHandler as Except.error, to be
caught by the recover of msgProcessor (lines 174-178). -/
def requestHandler {α β : Type} (ca : Codec α) (cb : Codec β)
    (handlers : String → Option (rpcHandlerM α β)) (msgID peerID : String)
    (request : rpcPayloadRequest) : Except String (List (String × rpcPayloadResponse)) :=
  match handlers request.type with
  | none =>
    .ok [(msgID, ⟨"RPC handler for method \x27" ++ request.type ++ "\x27 not found", []⟩)]
  | some handler =>
    match ca.dec request.data with
    | .error e => .ok [(msgID, ⟨"failed to decode data struct: " ++ e, []⟩)]
    | .ok x =>
      match handler.func peerID x with
      | .panicked v => .error v
      | .err e => .ok [(msgID, ⟨"Internal error: " ++ e, []⟩)]
      | .ok y => .ok [(msgID, ⟨"", cb.enc y⟩)]

/-- msgProcessor (lines 173-208) on a decoded request frame: the recover
at lines 174-178 turns an escaping panic into a log line only, so a
panicking handler enqueues nothing. -/
def msgProcessorRequest {α β : Type} (ca : Codec α) (cb : Codec β)
    (handlers : String → Option (rpcHandlerM α β)) (msgID peerID : String)
    (request : rpcPayloadRequest) : List (String × rpcPayloadResponse) :=
  match requestHandler ca cb handlers msgID peerID request with
  | .error _ => []
  | .ok msgs => msgs

/-- The reader loop of rpcMsgReader (lines 211-222) over a finite list of
decoded request frames: each frame is handed to its own msgProcessor
task, and the loop continues regardless of how that task ended.  The
result collects everything enqueued on the write queue. -/
def rpcMsgReaderRun {α β : Type} (ca : Codec α) (cb : Codec β)
    (handlers : String → Option (rpcHandlerM α β)) (peerID : String)
    (frames : List (String × rpcPayloadRequest)) : List (String × rpcPayloadResponse) :=
  (frames.map (fun f => msgProcessorRequest ca cb handlers f.1 peerID f.2)).flatten

/-- The outcome a completer delivers to the tracker channels: a value on
resp or a message on err. -/
inductive Outcome where
  | respData (d : Bytes)
  | errMsg (m : String)

/-- responseHandler (lines 347-351): a nonempty error field is wrapped
and delivered on err, otherwise the data bytes are delivered on resp. -/
def responseOutcome (peerID : String) (response : rpcPayloadResponse) : Outcome :=
  if response.error ≠ "" then
    .errMsg ("error returned by \x27" ++ peerID ++ "\x27: " ++ response.error)
  else .respData response.data

/-- The select in sendRequest (lines 422-431): a resp delivery is decoded
into the response target, an err delivery is returned as the error. -/
def awaitOutcome {β : Type} (cb : Codec β) : Outcome → Except String β
  | .errMsg m => .error m
  | .respData d =>
    match cb.dec d with
    | .error e => .error ("failed to decode response payload: " ++ e)
    | .ok y => .ok y

/-- The full Send pipeline of claim C3 at payload level: sendRequest
encodes the argument (lines 364-372), requestHandler serves it on the
remote side, responseHandler delivers the enqueued response, and
sendRequest decodes it.  The final branch (nothing enqueued, so the
caller would time out) does not arise under the hypotheses of the
round-trip theorem. -/
def sendPipeline {α β : Type} (ca : Codec α) (cb : Codec β)
    (handlers : String → Option (rpcHandlerM α β)) (msgID peerID method : String)
    (x : α) : Except String β :=
  match requestHandler ca cb handlers msgID peerID ⟨method, ca.enc x⟩ with
  | .ok ((_, resp) :: _) => awaitOutcome cb (responseOutcome peerID resp)
  | _ => .error "request dropped: no response enqueued"

/-- State of the channels of one requestTracker (lines 108-113): whether
closeSig has been closed, what was delivered on resp and on err, and
whether a runtime panic (close of a closed channel) occurred. -/
structure TrackerState where
  latchClosed : Bool
  respVal : Option Bytes
  errVal : Option String
  panicked : Bool

/-- A fresh tracker as built at lines 382-387. -/
def initTracker : TrackerState :=
  ⟨false, none, none, false⟩

/-- Program counter of one completer goroutine.  Both responseHandler
(lines 339-354) and the timeout goroutine (lines 401-418) run the same
shape: a non-blocking closed-check on closeSig, then close(closeSig),
then delivery of their outcome. -/
inductive RacerPC where
  | check | closeLatch | deliver | finished

/-- Delivery on the tracker channels (lines 347-351 and line 415). -/
def deliverOutcome : Outcome → TrackerState → TrackerState
  | .respData d, s => { s with respVal := some d }
  | .errMsg m, s => { s with errVal := some m }

/-- One step of a completer goroutine.  In Go, close of an already
closed channel panics: the closeLatch step checks the latch again
because another goroutine may have closed it between the check and the
close - the two operations are not atomic in the source. -/
def racerStep (o : Outcome) : TrackerState × RacerPC → TrackerState × RacerPC
  | (s, .check) => if s.latchClosed then (s, .finished) else (s, .closeLatch)
  | (s, .closeLatch) =>
    if s.latchClosed then ({ s with panicked := true }, .finished)
    else ({ s with latchClosed := true }, .deliver)
  | (s, .deliver) => (deliverOutcome o s, .finished)
  | (s, .finished) => (s, .finished)

/-- Joint state of the tracker and of the two racing completers. -/
structure RaceState where
  st : TrackerState
  respPC : RacerPC
  timeoutPC : RacerPC

/-- One scheduled step: true runs the responseHandler goroutine, false
runs the timeout goroutine. -/
def raceStep (respO tmO : Outcome) (sys : RaceState) (who : Bool) : RaceState :=
  if who then
    let p := racerStep respO (sys.st, sys.respPC)
    { sys with st := p.1, respPC := p.2 }
  else
    let p := racerStep tmO (sys.st, sys.timeoutPC)
    { sys with st := p.1, timeoutPC := p.2 }

/-- Run a schedule of interleaved steps of the two completers. -/
def raceRun (respO tmO : Outcome) : List Bool → RaceState → RaceState
  | [], sys => sys
  | w :: ws, sys => raceRun respO tmO ws (raceStep respO tmO sys w)

/-- The timeout duration of sendRequest in seconds: time.Sleep of
time.Second * 5 at line 403. -/
def sendTimeoutSeconds : Nat := 5

/-- The timeout error of line 415. -/
def timeoutErrMsg (msgID reqType peerID : String) : String :=
  "timeout waiting for request \x27" ++ msgID ++ "\x27(" ++ reqType
    ++ ") to peer \x27" ++ peerID ++ "\x27"

/-- The outcome the timeout goroutine delivers on err (line 415). -/
def timeoutOutcome (msgID reqType peerID : String) : Outcome :=
  .errMsg (timeoutErrMsg msgID reqType peerID)

/-- The two concurrent-map tables of P2P that sendRequest touches
(lines 121-122): the set of tracked request ids (reqs) and the set of
peer ids having a message processor (rpcMsgProcessors). -/
structure P2PTables where
  reqs : List String
  rpcMsgProcessors : List String
deriving DecidableEq

/-- Control-flow skeleton of sendRequest (lines 357-433) over the
tables.  The two marshal steps and the awaited outcome are parameters;
the bookkeeping follows the source order: reqs.Set at line 388, the
early return at line 394 when the peer has no processor entry (the
deferred reqs.Remove at line 421 is registered only after that return),
then the deferred remove around the select at lines 422-431. -/
def sendRequest (st : P2PTables) (peerID msgID : String)
    (encodeDataOk encodeReqOk : Bool) (awaited : Outcome) (respDecodeOk : Bool) :
    P2PTables × Except String Unit :=
  if ¬ encodeDataOk then
    (st, .error ("failed to encode data for request \x27" ++ msgID
      ++ "\x27 for peer \x27" ++ peerID ++ "\x27"))
  else if ¬ encodeReqOk then
    (st, .error ("failed to encode request \x27" ++ msgID
      ++ "\x27 for peer \x27" ++ peerID ++ "\x27"))
  else
    let st1 : P2PTables := { st with reqs := msgID :: st.reqs }
    if peerID ∉ st1.rpcMsgProcessors then
      (st1, .error ("failed to send request \x27" ++ msgID ++ "\x27 for peer \x27"
        ++ peerID ++ "\x27: peer writer not found"))
    else
      let st2 : P2PTables := { st1 with reqs := st1.reqs.erase msgID }
      match awaited with
      | .respData _ =>
        if respDecodeOk then (st2, .ok ())
        else (st2, .error "failed to decode response payload")
      | .errMsg m => (st2, .error m)

/-- cmap.ConcurrentMap Get over an association list keyed by peer id. -/
def cmapGet (t : List (String × Nat)) (k : String) : Option Nat :=
  (t.find? (fun e => e.1 = k)).map (fun e => e.2)

/-- cmap.ConcurrentMap SetIfAbsent: inserts and reports true only when
the key is absent. -/
def cmapSetIfAbsent (t : List (String × Nat)) (k : String) (v : Nat) :
    List (String × Nat) × Bool :=
  match cmapGet t k with
  | some _ => (t, false)
  | none => ((k, v) :: t, true)

/-- Result of newRPCStreamHandler: the rpcMsgProcessors table afterwards
and whether the reader and writer goroutines were started. -/
structure StreamHandlerResult where
  table : List (String × Nat)
  startedReader : Bool
  startedWriter : Bool
deriving DecidableEq

/-- newRPCStreamHandler (lines 155-169): an early return when a worker
entry for the remote peer is found (lines 156-159), otherwise a
SetIfAbsent whose success gates the start of the reader and writer
goroutines (lines 163-168).  Worker entries are abstract tokens. -/
def newRPCStreamHandler (table : List (String × Nat)) (remotePeer : String)
    (worker : Nat) : StreamHandlerResult :=
  match cmapGet table remotePeer with
  | some _ => ⟨table, false, false⟩
  | none =>
    let p := cmapSetIfAbsent table remotePeer worker
    ⟨p.1, p.2, p.2⟩

/-- pubsubMsg envelope (lines 86-90) at the level the dispatcher needs:
the message type tag and the opaque payload bytes. -/
structure pubsubMsgEnvelope where
  type : String
  payload : Bytes
deriving DecidableEq

/-- pubsubHandler (lines 81-84). -/
structure pubsubHandlerM (γ : Type) where
  func : String → γ → Except String Unit

/-- One iteration of the subscription loop of pubsubMsgProcessor (lines
445-492) on a received message: the self-echo filter at lines 454-456
runs before any decoding, then the spawned task decodes the envelope,
looks up the handler by type, decodes the payload and invokes the
handler with the sender id.  The result records the handler invocation
performed, or none when no handler was invoked. -/
def pubsubMsgProcessorStep {γ : Type} (envCodec : Codec pubsubMsgEnvelope)
    (payloadCodec : Codec γ) (handlers : String → Option (pubsubHandlerM γ))
    (hostID sender : String) (data : Bytes) : Option (String × γ) :=
  if sender = hostID then none
  else
    match envCodec.dec data with
    | .error _ => none
    | .ok m =>
      match handlers m.type with
      | none => none
      | some _ =>
        match payloadCodec.dec m.payload with
        | .error _ => none
        | .ok p => some (sender, p)

/-- The calls Server methods make on the external DB interface
(src/p2p/server/server.go, lines 16-22), recorded as a trace. -/
inductive DBCall where
  | addPeer (peerID : String)
  | removePeer (peerID : String)
  | getAllCommits
  | execAndCommit (query commitMsg : String)
  | getLastCommit (branch : String)
deriving DecidableEq

/-- proto.PingRequest: the Ping field. -/
structure PingRequest where
  ping : String
deriving DecidableEq

/-- proto.PingResponse: the Pong field. -/
structure PingResponse where
  pong : String
deriving DecidableEq

/-- Server.Ping (src/p2p/server/server.go, lines 28-38).  The context is
modelled by the remote peer identity it carries, if any
(p2pgrpc.RemotePeerFromContext); the second component is the trace of
DB calls performed. -/
def Ping (remotePeer : Option String) (req : PingRequest) :
    Except String PingResponse × List DBCall :=
  match remotePeer with
  | none => (.error "no AuthInfo in context", [])
  | some _ => (.ok ⟨"Ping: " ++ req.ping ++ "!"⟩, [])

/-- Server.ExecSQL (src/p2p/server/server.go, lines 40-46), included to
show the DB-call trace is not vacuous: unlike Ping it does call the DB. -/
def ExecSQL (dbExecAndCommit : String → String → Except String String)
    (statement msg : String) : Except String String × List DBCall :=
  match dbExecAndCommit statement msg with
  | .error e => (.error e, [DBCall.execAndCommit statement msg])
  | .ok commit => (.ok commit, [DBCall.execAndCommit statement msg])

/-- Demo payload codec on naturals for witness instances. -/
def natCodec : Codec Nat :=
  ⟨fun n => [n],
   fun b => match b with | [n] => .ok n | _ => .error "not a single byte"⟩

/-- Demo handler returning its argument plus one. -/
def incHandler : rpcHandlerM Nat Nat :=
  ⟨fun _ n => .ok (n + 1)⟩

/-- Demo handler that panics, as an out-of-range slice access would. -/
def boomHandler : rpcHandlerM Nat Nat :=
  ⟨fun _ _ => .panicked "runtime error: index out of range"⟩

/-- Demo RPC handler table. -/
def demoHandlers : String → Option (rpcHandlerM Nat Nat) :=
  fun m =>
    if m = "inc" then some incHandler
    else if m = "boom" then some boomHandler
    else none

/-- Demo pubsub envelope codec: payload bytes tagged as echo messages. -/
def demoEnvCodec : Codec pubsubMsgEnvelope :=
  ⟨fun e => e.payload, fun b => .ok ⟨"echo", b⟩⟩

/-- Demo pubsub handler that accepts every payload. -/
def echoHandler : pubsubHandlerM Nat :=
  ⟨fun _ _ => .ok ()⟩

/-- Demo pubsub handler table. -/
def demoPubsubHandlers : String → Option (pubsubHandlerM Nat) :=
  fun t => if t = "echo" then some echoHandler else none

theorem string_append_assoc (a b c : String) : a ++ b ++ c = a ++ (b ++ c) := by
  rcases a with ⟨da⟩; rcases b with ⟨db⟩; rcases c with ⟨dc⟩
  show String.mk (da ++ db ++ dc) = String.mk (da ++ (db ++ dc))
  rw [List.append_assoc]

/-- Claim C1 (evidence of the code bug): the closed-check and the close
of closeSig are not atomic.  Under the interleaving in which both
responseHandler (lines 339-345) and the timeout goroutine (lines
406-413) pass their non-blocking closed-check before either has closed
the channel, both proceed to close(closeSig): in Go the second close of
a channel panics, refuting the claim that no double close occurs under
every interleaving. -/
theorem closeSig_double_close_panics :
    (raceRun (Outcome.respData []) (timeoutOutcome "req1" "ping" "peerB")
        [true, false, true, false]
        ⟨initTracker, RacerPC.check, RacerPC.check⟩).st.panicked = true := rfl

/-- Claim C2 (evidence of the code bug): the deferred reqs.Remove of
line 421 is registered only after the early return of line 394, so a
Send to a peer with no message processor entry returns the peer writer
not found error while leaving the tracker entry set at line 388 in the
reqs table. -/
theorem sendRequest_leaks_tracker_on_missing_peer :
    (sendRequest ⟨[], []⟩ "peerB" "req1" true true (Outcome.respData []) true).1.reqs
      = ["req1"] ∧
    (sendRequest ⟨[], []⟩ "peerB" "req1" true true (Outcome.respData []) true).2
      = .error "failed to send request \x27req1\x27 for peer \x27peerB\x27: peer writer not found" :=
  ⟨rfl, rfl⟩

/-- Supporting fact (not a claim theorem): on every path that reaches
the select of lines 422-431, the deferred remove does run and the reqs
table is restored. -/
theorem sendRequest_removes_tracker_when_awaited (st : P2PTables) (peerID msgID : String)
    (awaited : Outcome) (respDecodeOk : Bool)
    (hmem : peerID ∈ st.rpcMsgProcessors) :
    (sendRequest st peerID msgID true true awaited respDecodeOk).1.reqs = st.reqs := by
  cases awaited with
  | respData d =>
    cases respDecodeOk <;> simp [sendRequest, hmem, List.erase_cons_head]
  | errMsg m =>
    simp [sendRequest, hmem, List.erase_cons_head]

/-- Claim C3: the Send pipeline is the identity on payloads modulo the
codec round-trips.  When method m is registered with handler h, the
encoded argument decodes back to itself, the handler succeeds, and the
encoded result decodes back to itself, a completed Send delivers exactly
the result of h. -/
theorem send_roundtrip {α β : Type} (ca : Codec α) (cb : Codec β)
    (handlers : String → Option (rpcHandlerM α β)) (h : rpcHandlerM α β)
    (method msgID peerID : String) (x : α) (y : β)
    (hlookup : handlers method = some h)
    (hdecx : ca.dec (ca.enc x) = .ok x)
    (hrun : h.func peerID x = .ok y)
    (hdecy : cb.dec (cb.enc y) = .ok y) :
    sendPipeline ca cb handlers msgID peerID method x = .ok y := by
  simp [sendPipeline, requestHandler, hlookup, hdecx, hrun, responseOutcome,
    awaitOutcome, hdecy]

/-- Witness for send_roundtrip at the demo instances: Send of 41 to the
inc method yields 42. -/
theorem send_roundtrip_witness :
    sendPipeline natCodec natCodec demoHandlers "req1" "peerA" "inc" 41 = .ok 42 :=
  send_roundtrip natCodec natCodec demoHandlers incHandler "inc" "req1" "peerA"
    41 42 rfl rfl rfl rfl

/-- Claim C4: a request whose response has not arrived within the 5
second sleep of line 403 is completed by the timeout goroutine, which
wins the latch cleanly in this ordering: Send receives on err the error
of line 415, whose text extends the words timeout waiting for request,
the late responseHandler observes the closed latch at its first step and
exits delivering nothing (the stalled response is dropped), no panic
occurs, and the sleep before the timeout delivery is exactly 5 seconds. -/
theorem sendRequest_timeout_behavior (msgID reqType peerID : String) (d : Bytes) :
    (let final := raceRun (Outcome.respData d) (timeoutOutcome msgID reqType peerID)
        [false, false, false, true] ⟨initTracker, RacerPC.check, RacerPC.check⟩
     final.st.errVal = some (timeoutErrMsg msgID reqType peerID) ∧
     final.st.respVal = none ∧
     final.st.panicked = false ∧
     final.respPC = RacerPC.finished) ∧
    (∃ rest, timeoutErrMsg msgID reqType peerID = "timeout waiting for request" ++ rest) ∧
    sendTimeoutSeconds = 5 := by
  refine ⟨⟨rfl, rfl, rfl, rfl⟩,
    ⟨" \x27" ++ msgID ++ "\x27(" ++ reqType ++ ") to peer \x27" ++ peerID ++ "\x27", ?_⟩, rfl⟩
  have h0 : ("timeout waiting for request \x27" : String)
      = "timeout waiting for request" ++ " \x27" := rfl
  simp only [timeoutErrMsg, string_append_assoc]
  rw [h0, string_append_assoc]

/-- Claim C5 counterexample: a request to the boom method, whose handler
panics, produces no enqueued response at all - in particular no
error-bearing response envelope under the request id - because the
recover at lines 174-178 only logs the panic. -/
theorem handler_panic_no_response_counterexample :
    msgProcessorRequest natCodec natCodec demoHandlers "req9" "peerA"
      ⟨"boom", natCodec.enc 0⟩ = [] := rfl

/-- Claim C5 amended: when a registered handler panics while processing
an inbound request, the recover of msgProcessor catches the panic, but
no response envelope is enqueued for the request id (the remote caller
is left to time out); the worker survives: the reader loop processes the
remaining frames exactly as if the panicking frame had not arrived. -/
theorem handler_panic_caught_worker_survives {α β : Type} (ca : Codec α) (cb : Codec β)
    (handlers : String → Option (rpcHandlerM α β)) (h : rpcHandlerM α β)
    (method msgID peerID v : String) (x : α)
    (hlookup : handlers method = some h)
    (hdecx : ca.dec (ca.enc x) = .ok x)
    (hrun : h.func peerID x = .panicked v) :
    msgProcessorRequest ca cb handlers msgID peerID ⟨method, ca.enc x⟩ = [] ∧
    ∀ frames, rpcMsgReaderRun ca cb handlers peerID ((msgID, ⟨method, ca.enc x⟩) :: frames)
      = rpcMsgReaderRun ca cb handlers peerID frames := by
  have hmp : msgProcessorRequest ca cb handlers msgID peerID ⟨method, ca.enc x⟩ = [] := by
    simp [msgProcessorRequest, requestHandler, hlookup, hdecx, hrun]
  exact ⟨hmp, fun frames => by simp [rpcMsgReaderRun, hmp]⟩

/-- Witness for handler_panic_caught_worker_survives at the demo
instances: the panicking frame enqueues nothing and the next frame is
served as usual. -/
theorem handler_panic_caught_witness :
    msgProcessorRequest natCodec natCodec demoHandlers "req9" "peerB"
      ⟨"boom", natCodec.enc 7⟩ = [] ∧
    rpcMsgReaderRun natCodec natCodec demoHandlers "peerB"
        [("req9", ⟨"boom", natCodec.enc 7⟩), ("req10", ⟨"inc", natCodec.enc 1⟩)]
      = rpcMsgReaderRun natCodec natCodec demoHandlers "peerB"
        [("req10", ⟨"inc", natCodec.enc 1⟩)] :=
  ⟨(handler_panic_caught_worker_survives natCodec natCodec demoHandlers boomHandler
      "boom" "req9" "peerB" "runtime error: index out of range" 7 rfl rfl rfl).1,
   (handler_panic_caught_worker_survives natCodec natCodec demoHandlers boomHandler
      "boom" "req9" "peerB" "runtime error: index out of range" 7 rfl rfl rfl).2
     [("req10", ⟨"inc", natCodec.enc 1⟩)]⟩

/-- Claim C6 counterexample: on the input consisting of the single byte
98 and no newline, the code framer delivers the unterminated trailing
chunk, and on the input of a lone newline it delivers the length-1 frame
consisting of the delimiter, which passes the length-0 skip of the
reader and is dispatched; the framer described by the claim delivers
neither. -/
theorem delimReader_counterexample :
    rpcReaderFrames [98] = [[98]] ∧ rpcReaderFrames [10] = [[10]] ∧
    framerClaimed newlineByte [98] = [] ∧ framerClaimed newlineByte [10] = [] := by
  decide

/-- Claim C6 amended: the framer is lossless and yields only nonempty
chunks: the concatenation of the yielded frames is the whole input
(hence the trailing chunk not terminated by a newline IS delivered, and
so is a frame consisting of a lone newline), no frame is empty, the
delimiter occurs only as the last byte of a frame, and the length-0 skip
of the reader loop filters nothing. -/
theorem delimReader_characterization (input : List Nat) :
    (delimReader newlineByte input).flatten = input ∧
    (∀ f ∈ delimReader newlineByte input, f ≠ []) ∧
    (∀ f ∈ delimReader newlineByte input, ∀ b ∈ f.dropLast, b ≠ newlineByte) ∧
    rpcReaderFrames input = delimReader newlineByte input := by
  refine ⟨by simpa using delimFramesAux_join newlineByte input [],
    fun f hf => delimFramesAux_ne_nil newlineByte input [] f hf,
    fun f hf => delimFramesAux_dropLast newlineByte input [] (by simp) f hf, ?_⟩
  unfold rpcReaderFrames
  rw [List.filter_eq_self]
  intro f hf
  have hne := delimFramesAux_ne_nil newlineByte input [] f hf
  simpa [List.length_eq_zero] using hne

/-- Witness for delimReader_characterization on a concrete stream: the
frames of the stream 97 10 10 98 concatenate back to it, and the lone
newline frame it contains is nonempty. -/
theorem delimReader_characterization_witness :
    (delimReader newlineByte [97, 10, 10, 98]).flatten = [97, 10, 10, 98] ∧
    ([10] : List Nat) ≠ [] :=
  ⟨(delimReader_characterization [97, 10, 10, 98]).1,
   (delimReader_characterization [97, 10, 10, 98]).2.1 [10] (by decide)⟩

/-- Claim C7: the self-echo filter.  A pubsub message received from the
local host id invokes no handler, while a message from any other sender
that decodes to an envelope with a registered handler and a decodable
payload is dispatched to that handler with the sender id and the decoded
payload. -/
theorem pubsub_self_echo_filter {γ : Type} (envCodec : Codec pubsubMsgEnvelope)
    (payloadCodec : Codec γ) (handlers : String → Option (pubsubHandlerM γ))
    (hostID sender : String) (data selfData : Bytes)
    (env : pubsubMsgEnvelope) (h : pubsubHandlerM γ) (p : γ)
    (hsender : sender ≠ hostID)
    (hdec : envCodec.dec data = .ok env)
    (hh : handlers env.type = some h)
    (hpd : payloadCodec.dec env.payload = .ok p) :
    pubsubMsgProcessorStep envCodec payloadCodec handlers hostID hostID selfData = none ∧
    pubsubMsgProcessorStep envCodec payloadCodec handlers hostID sender data
      = some (sender, p) := by
  constructor
  · simp [pubsubMsgProcessorStep]
  · simp [pubsubMsgProcessorStep, hsender, hdec, hh, hpd]

/-- Witness for pubsub_self_echo_filter at the demo instances: peer A
ignores its own broadcast, peer B has it dispatched. -/
theorem pubsub_self_echo_filter_witness :
    pubsubMsgProcessorStep demoEnvCodec natCodec demoPubsubHandlers "peerA" "peerA" [5]
      = none ∧
    pubsubMsgProcessorStep demoEnvCodec natCodec demoPubsubHandlers "peerA" "peerB" [5]
      = some ("peerB", 5) :=
  pubsub_self_echo_filter demoEnvCodec natCodec demoPubsubHandlers "peerA" "peerB"
    [5] [5] ⟨"echo", [5]⟩ echoHandler 5 (by decide) rfl rfl rfl

/-- Claim C8: when a worker already exists for the remote peer,
newRPCStreamHandler is a no-op: the table is returned unchanged (no
second worker is inserted and the existing entry is untouched) and no
reader or writer goroutine is started. -/
theorem newRPCStreamHandler_noop_when_worker_exists (table : List (String × Nat))
    (remotePeer : String) (w worker : Nat)
    (hfound : cmapGet table remotePeer = some w) :
    newRPCStreamHandler table remotePeer worker = ⟨table, false, false⟩ ∧
    cmapGet (newRPCStreamHandler table remotePeer worker).table remotePeer = some w := by
  constructor <;> simp [newRPCStreamHandler, hfound]

/-- Witness for newRPCStreamHandler_noop_when_worker_exists: a second
stream for peer A leaves the existing worker entry 1 untouched and
starts nothing. -/
theorem newRPCStreamHandler_noop_witness :
    newRPCStreamHandler [("peerA", 1)] "peerA" 2 = ⟨[("peerA", 1)], false, false⟩ ∧
    cmapGet (newRPCStreamHandler [("peerA", 1)] "peerA" 2).table "peerA" = some 1 :=
  newRPCStreamHandler_noop_when_worker_exists [("peerA", 1)] "peerA" 1 2 (by decide)

/-- Claim C9: with a remote peer identity present in the context, the
ping handler replies with the string Ping: msg! and no error; in
particular a request carrying hello produces Ping: hello!. -/
theorem Ping_reply (p msg : String) :
    Ping (some p) ⟨msg⟩ = (.ok ⟨"Ping: " ++ msg ++ "!"⟩, []) ∧
    Ping (some p) ⟨"hello"⟩ = (.ok ⟨"Ping: hello!"⟩, []) :=
  ⟨rfl, rfl⟩

/-- Claim C10: with no remote peer identity in the context, Ping returns
no response and exactly the error no AuthInfo in context; the success
reply is computed only when the identity is present; and in both cases
the trace of DB calls is empty. -/
theorem Ping_no_auth (req : PingRequest) (p : String) :
    Ping none req = (.error "no AuthInfo in context", []) ∧
    Ping (some p) req = (.ok ⟨"Ping: " ++ req.ping ++ "!"⟩, []) ∧
    (Ping none req).2 = [] ∧ (Ping (some p) req).2 = [] :=
  ⟨rfl, rfl, rfl, rfl⟩
